import Mathlib

/-!
Verification of the CADboard project-verification workflow engine, as
implemented by the `workflowStates` table and the `transitionProjectStatus`
handler in `docs/ARCHITECTURE.md` (Workflow Service implementation pattern).

States and document types are strings, as in the JavaScript source; the
transition table is an optional-valued map from state name to a record of
display name, reachable states, and required document types.  The HTTP handler is
embedded as a pure state-passing function returning the (possibly updated)
project together with the response that the handler would send.  Timestamps
(`new Date()`) are supplied to the handler as an explicit `now` parameter.
-/

namespace CADboard

/-- A document reference as seen by the engine: only its type tag matters. -/
structure DocumentRef where
  documentType : String
deriving Repr, DecidableEq

/-- One entry of a project's status history, as pushed by the handler:
`{status: newStatus, timestamp: new Date(), updatedBy: req.user.id, comment}`. -/
structure StatusChangeRecord where
  status : String
  timestamp : Nat
  updatedBy : String
  comment : Option String
deriving Repr, DecidableEq

/-- The project fields the workflow handler reads and writes. -/
structure Project where
  id : String
  owner : String
  status : String
  statusHistory : List StatusChangeRecord
  documents : List DocumentRef
deriving Repr, DecidableEq

/-- The `data` payload of the notification created on a successful transition. -/
structure NotificationData where
  newStatus : String
  previousStatus : String
deriving Repr, DecidableEq

/-- The notification event passed to `createNotification` by the handler. -/
structure Notification where
  type : String
  projectId : String
  userId : String
  message : String
  data : NotificationData
deriving Repr, DecidableEq

/-- One row of the `workflowStates` object literal. -/
structure StateDef where
  name : String
  allowedTransitions : List String
  requiredDocuments : List String
deriving Repr, DecidableEq

/-- The `workflowStates` table from the source, keyed by state name;
`none` models a key absent from the object literal. -/
def workflowStates (s : String) : Option StateDef :=
  if s = "draft" then
    some { name := "Draft",
           allowedTransitions := ["in-progress"],
           requiredDocuments := [] }
  else if s = "in-progress" then
    some { name := "In Progress",
           allowedTransitions := ["submitted", "draft"],
           requiredDocuments := ["project-design-document"] }
  else if s = "submitted" then
    some { name := "Submitted for Validation",
           allowedTransitions := ["in-progress", "validated"],
           requiredDocuments := ["project-design-document", "supporting-documentation"] }
  else if s = "validated" then
    some { name := "Validated",
           allowedTransitions := ["registered"],
           requiredDocuments := ["validation-report"] }
  else if s = "registered" then
    some { name := "Registered",
           allowedTransitions := ["monitoring"],
           requiredDocuments := ["registration-proof"] }
  else if s = "monitoring" then
    some { name := "Monitoring",
           allowedTransitions := ["verification"],
           requiredDocuments := ["monitoring-report"] }
  else if s = "verification" then
    some { name := "Under Verification",
           allowedTransitions := ["verified", "monitoring"],
           requiredDocuments := ["verification-report"] }
  else if s = "verified" then
    some { name := "Verified",
           allowedTransitions := ["issuance", "monitoring"],
           requiredDocuments := ["verification-statement"] }
  else if s = "issuance" then
    some { name := "Issuance Requested",
           allowedTransitions := ["issued", "verified"],
           requiredDocuments := ["issuance-request"] }
  else if s = "issued" then
    some { name := "Credits Issued",
           allowedTransitions := ["monitoring"],
           requiredDocuments := ["issuance-confirmation"] }
  else none

/-- The fixed ten-state set, in the order of the table. -/
def stateList : List String :=
  ["draft", "in-progress", "submitted", "validated", "registered",
   "monitoring", "verification", "verified", "issuance", "issued"]

/-- `allowedTransitions(currentState)` query: the reachable-state set of a
state, read off the table (`workflowStates[s].allowedTransitions`). -/
def allowedTransitions (s : String) : List String :=
  ((workflowStates s).map StateDef.allowedTransitions).getD []

/-- The document types required to enter a state, read off the table
(`workflowStates[s].requiredDocuments`). -/
def requiredDocumentsFor (s : String) : List String :=
  ((workflowStates s).map StateDef.requiredDocuments).getD []

/-- `missingDocumentsFor(project, targetState)` query: the required document
types of the target state for which no document of that type is present,
computed exactly as the handler's collection loop does. -/
def missingDocumentsFor (documents : List DocumentRef) (targetState : String) :
    List String :=
  match workflowStates targetState with
  | none => []
  | some targetDef =>
      targetDef.requiredDocuments.filter
        (fun requiredDoc => ! documents.any (fun doc => doc.documentType == requiredDoc))

/-- The responses the handler can send:
400 invalid transition, 400 missing documents, 200 with the new status and
full history plus the notification handed to the sink, or the 500 catch-all
reached when the handler dereferences a table entry that does not exist. -/
inductive Response where
  | invalidTransition (fromState toState : String)
  | missingDocuments (missing : List String)
  | ok (status : String) (statusHistory : List StatusChangeRecord) (notif : Notification)
  | serverError
deriving Repr, DecidableEq

/-- The `transitionProjectStatus` handler, embedded as a pure function: it
returns the project as left by the handler together with the response.
`now` stands for `new Date()` and `actorId` for `req.user.id`. -/
def transitionProjectStatus (project : Project) (newStatus : String)
    (actorId : String) (comment : Option String) (now : Nat) :
    Project × Response :=
  match workflowStates project.status with
  | none => (project, .serverError)
  | some currentState =>
    if newStatus ∈ currentState.allowedTransitions then
      match workflowStates newStatus with
      | none => (project, .serverError)
      | some targetState =>
        let missingDocuments := targetState.requiredDocuments.filter
          (fun requiredDoc =>
            ! project.documents.any (fun doc => doc.documentType == requiredDoc))
        if missingDocuments.isEmpty then
          let record : StatusChangeRecord :=
            { status := newStatus, timestamp := now,
              updatedBy := actorId, comment := comment }
          let project' : Project :=
            { project with
                status := newStatus,
                statusHistory := project.statusHistory ++ [record] }
          let notif : Notification :=
            { type := "status-change",
              projectId := project.id,
              userId := project.owner,
              message := "Project status changed to " ++ targetState.name,
              data := { newStatus := newStatus, previousStatus := currentState.name } }
          (project', .ok project'.status project'.statusHistory notif)
        else
          (project, .missingDocuments missingDocuments)
    else
      (project, .invalidTransition project.status newStatus)

/-- Reachable sets exactly as listed in the specification's transition table
(column "Reachable from it"), written from the spec's words for comparison
with the table embedded in the code. -/
def specReachable (s : String) : List String :=
  if s = "draft" then ["in-progress"]
  else if s = "in-progress" then ["submitted", "draft"]
  else if s = "submitted" then ["in-progress", "validated"]
  else if s = "validated" then ["registered"]
  else if s = "registered" then ["monitoring"]
  else if s = "monitoring" then ["verification"]
  else if s = "verification" then ["verified", "monitoring"]
  else if s = "verified" then ["issuance", "monitoring"]
  else if s = "issuance" then ["issued", "verified"]
  else if s = "issued" then ["monitoring"]
  else []

/-- Required-document sets exactly as listed in the specification's transition
table (column "Document types required to enter this state"), written from
the spec's words for comparison with the table embedded in the code. -/
def specRequired (s : String) : List String :=
  if s = "draft" then []
  else if s = "in-progress" then ["project-design-document"]
  else if s = "submitted" then ["project-design-document", "supporting-documentation"]
  else if s = "validated" then ["validation-report"]
  else if s = "registered" then ["registration-proof"]
  else if s = "monitoring" then ["monitoring-report"]
  else if s = "verification" then ["verification-report"]
  else if s = "verified" then ["verification-statement"]
  else if s = "issuance" then ["issuance-request"]
  else if s = "issued" then ["issuance-confirmation"]
  else []

/-- A project's status agrees with the last history entry (or is `draft`
when the history is empty). -/
def statusConsistent (p : Project) : Prop :=
  p.status = ((p.statusHistory.getLast?).map StatusChangeRecord.status).getD "draft"

instance (p : Project) : Decidable (statusConsistent p) := by
  unfold statusConsistent; infer_instance

/-- Timestamps along a history are non-decreasing. -/
def timestampsMono : List StatusChangeRecord → Bool
  | [] => true
  | [_] => true
  | a :: b :: rest => a.timestamp ≤ b.timestamp && timestampsMono (b :: rest)

/-! ### Helper lemmas about the table and the handler -/

lemma ws_isSome_of_mem : ∀ s ∈ stateList, (workflowStates s).isSome := by
  decide

lemma ws_none_of_not_mem {s : String} (h : s ∉ stateList) :
    workflowStates s = none := by
  simp only [stateList, List.mem_cons, List.not_mem_nil, or_false, not_or] at h
  obtain ⟨h1, h2, h3, h4, h5, h6, h7, h8, h9, h10⟩ := h
  simp [workflowStates, h1, h2, h3, h4, h5, h6, h7, h8, h9, h10]

lemma allowedTransitions_eq {s : String} {cs : StateDef}
    (h : workflowStates s = some cs) :
    allowedTransitions s = cs.allowedTransitions := by
  simp [allowedTransitions, h]

lemma requiredDocumentsFor_eq {s : String} {d : StateDef}
    (h : workflowStates s = some d) :
    requiredDocumentsFor s = d.requiredDocuments := by
  simp [requiredDocumentsFor, h]

lemma missingDocumentsFor_eq {t : String} {d : StateDef}
    (h : workflowStates t = some d) (documents : List DocumentRef) :
    missingDocumentsFor documents t =
      d.requiredDocuments.filter
        (fun requiredDoc => ! documents.any (fun doc => doc.documentType == requiredDoc)) := by
  simp [missingDocumentsFor, h]

lemma noop_not_allowed : ∀ s ∈ stateList, s ∉ allowedTransitions s := by
  decide

lemma allowed_subset : ∀ s ∈ stateList, ∀ t ∈ allowedTransitions s, t ∈ stateList := by
  decide

lemma transition_invalid {p : Project} {t : String} (a : String) (c : Option String)
    (now : Nat) (hs : p.status ∈ stateList) (ht : t ∉ allowedTransitions p.status) :
    transitionProjectStatus p t a c now = (p, .invalidTransition p.status t) := by
  obtain ⟨cs, hcs⟩ := Option.isSome_iff_exists.mp (ws_isSome_of_mem _ hs)
  rw [allowedTransitions_eq hcs] at ht
  simp [transitionProjectStatus, hcs, ht]

lemma transition_missing {p : Project} {t : String} {d : StateDef} (a : String)
    (c : Option String) (now : Nat) {cs : StateDef}
    (hcs : workflowStates p.status = some cs) (ht : t ∈ cs.allowedTransitions)
    (hd : workflowStates t = some d)
    (hne : missingDocumentsFor p.documents t ≠ []) :
    transitionProjectStatus p t a c now =
      (p, .missingDocuments (missingDocumentsFor p.documents t)) := by
  rw [missingDocumentsFor_eq hd] at hne ⊢
  simp [transitionProjectStatus, hcs, ht, hd, List.isEmpty_iff, hne]

lemma transition_ok {p : Project} {t : String} {cs d : StateDef} (a : String)
    (c : Option String) (now : Nat)
    (hcs : workflowStates p.status = some cs) (ht : t ∈ cs.allowedTransitions)
    (hd : workflowStates t = some d)
    (hm : missingDocumentsFor p.documents t = []) :
    transitionProjectStatus p t a c now =
      ({ p with
          status := t,
          statusHistory := p.statusHistory ++
            [{ status := t, timestamp := now, updatedBy := a, comment := c }] },
       .ok t (p.statusHistory ++
            [{ status := t, timestamp := now, updatedBy := a, comment := c }])
         { type := "status-change", projectId := p.id, userId := p.owner,
           message := "Project status changed to " ++ d.name,
           data := { newStatus := t, previousStatus := cs.name } }) := by
  rw [missingDocumentsFor_eq hd] at hm
  simp [transitionProjectStatus, hcs, ht, hd, List.isEmpty_iff, hm]

lemma mem_missingDocumentsFor {t : String} {d : StateDef}
    (hd : workflowStates t = some d) (documents : List DocumentRef) (x : String) :
    x ∈ missingDocumentsFor documents t ↔
      x ∈ d.requiredDocuments ∧ ∀ doc ∈ documents, doc.documentType ≠ x := by
  simp [missingDocumentsFor_eq hd, List.mem_filter, List.any_eq_true]

lemma transition_fst (p : Project) (t a : String) (c : Option String) (now : Nat) :
    (transitionProjectStatus p t a c now).1 = p ∨
    (transitionProjectStatus p t a c now).1 =
      { p with
          status := t,
          statusHistory := p.statusHistory ++
            [{ status := t, timestamp := now, updatedBy := a, comment := c }] } := by
  unfold transitionProjectStatus
  rcases h1 : workflowStates p.status with _ | cs
  · left; rfl
  · by_cases h2 : t ∈ cs.allowedTransitions
    · rcases h3 : workflowStates t with _ | d
      · left; simp [h2, h3]
      · by_cases h4 : (d.requiredDocuments.filter
            (fun requiredDoc =>
              ! p.documents.any (fun doc => doc.documentType == requiredDoc))).isEmpty
        · right; simp [h2, h3, h4]
        · left; simp [h2, h3, h4]
    · left; simp [h2]

lemma transition_ok_inv {p p' : Project} {t a : String} {c : Option String} {now : Nat}
    {st : String} {hist : List StatusChangeRecord} {n : Notification}
    (h : transitionProjectStatus p t a c now = (p', .ok st hist n)) :
    ∃ cs d, workflowStates p.status = some cs ∧ t ∈ cs.allowedTransitions ∧
      workflowStates t = some d ∧
      n = { type := "status-change", projectId := p.id, userId := p.owner,
            message := "Project status changed to " ++ d.name,
            data := { newStatus := t, previousStatus := cs.name } } := by
  unfold transitionProjectStatus at h
  rcases h1 : workflowStates p.status with _ | cs <;> rw [h1] at h
  · simp at h
  · by_cases h2 : t ∈ cs.allowedTransitions
    · rcases h3 : workflowStates t with _ | d <;> rw [h3] at h
      · simp [h2] at h
      · by_cases h4 : (d.requiredDocuments.filter
            (fun requiredDoc =>
              ! p.documents.any (fun doc => doc.documentType == requiredDoc))).isEmpty
        · simp only [h2, if_true, h4, if_pos] at h
          refine ⟨cs, d, rfl, h2, rfl, ?_⟩
          have := congrArg Prod.snd h
          simp only at this
          cases this
          rfl
        · simp [h2, h4] at h
    · simp [h2] at h

lemma timestampsMono_concat (l : List StatusChangeRecord) (x : StatusChangeRecord)
    (hl : timestampsMono l = true) (hx : ∀ r ∈ l, r.timestamp ≤ x.timestamp) :
    timestampsMono (l ++ [x]) = true := by
  induction l with
  | nil => simp [timestampsMono]
  | cons a tl ih =>
    cases tl with
    | nil =>
      simpa [timestampsMono] using hx a (by simp)
    | cons b tl2 =>
      simp only [List.cons_append, timestampsMono, Bool.and_eq_true] at hl ⊢
      exact ⟨hl.1, ih hl.2 (fun r hr => hx r (List.mem_cons_of_mem _ hr))⟩

/-! ### Claim theorems -/

/-- Claim C1: for every state in the fixed ten-state set, the table embedded
in the code has an entry, and its reachable-state set and its
required-document-type set are exactly the sets listed in the
specification's transition table. -/
theorem transition_table_matches_spec :
    ∀ s ∈ stateList, (workflowStates s).isSome ∧
      allowedTransitions s = specReachable s ∧
      requiredDocumentsFor s = specRequired s := by
  decide

/-- Witness for C1 at the `monitoring` state: entering `monitoring` requires
exactly a `monitoring-report`. -/
theorem transition_table_matches_spec_witness :
    ("monitoring" ∈ stateList) ∧
      ((workflowStates "monitoring").isSome ∧
       allowedTransitions "monitoring" = specReachable "monitoring" ∧
       requiredDocumentsFor "monitoring" = specRequired "monitoring") :=
  ⟨by decide, transition_table_matches_spec "monitoring" (by decide)⟩

/-- Claim C2: for every current state in the state set and every target not
in its reachable set, the handler answers `InvalidTransitionError` and
returns the project exactly as it was — status and history untouched. -/
theorem invalid_transition_rejected (p : Project) (t a : String) (c : Option String)
    (now : Nat) (hs : p.status ∈ stateList) (ht : t ∉ allowedTransitions p.status) :
    transitionProjectStatus p t a c now = (p, .invalidTransition p.status t) :=
  transition_invalid a c now hs ht

/-- Witness for C2: from `monitoring`, requesting `verified` directly is
rejected and the project is unchanged (spec Scenario C). -/
theorem invalid_transition_rejected_witness :
    ((("monitoring" : String) ∈ stateList) ∧
      ("verified" : String) ∉ allowedTransitions "monitoring") ∧
    transitionProjectStatus
        { id := "p-1", owner := "o-1", status := "monitoring",
          statusHistory := [], documents := [] } "verified" "a-1" none 7
      = ({ id := "p-1", owner := "o-1", status := "monitoring",
           statusHistory := [], documents := [] },
         .invalidTransition "monitoring" "verified") :=
  ⟨⟨by decide, by decide⟩,
   invalid_transition_rejected
     { id := "p-1", owner := "o-1", status := "monitoring",
       statusHistory := [], documents := [] }
     "verified" "a-1" none 7 (by decide) (by decide)⟩

/-- Claim C3: for a reachable target whose required-document set is not
covered by the project's documents, the handler answers
`MissingDocumentsError` carrying exactly the required types with no document
of that type present (the full list, not just the first), and returns the
project unchanged; the requirement checked is that of the target state. -/
theorem missing_documents_rejected (p : Project) (t a : String) (c : Option String)
    (now : Nat) (d : StateDef)
    (hs : p.status ∈ stateList) (ht : t ∈ allowedTransitions p.status)
    (hd : workflowStates t = some d)
    (habsent : ∃ r ∈ d.requiredDocuments, ∀ doc ∈ p.documents, doc.documentType ≠ r) :
    transitionProjectStatus p t a c now
      = (p, .missingDocuments (missingDocumentsFor p.documents t)) ∧
    ∀ x, x ∈ missingDocumentsFor p.documents t ↔
      (x ∈ d.requiredDocuments ∧ ∀ doc ∈ p.documents, doc.documentType ≠ x) := by
  obtain ⟨cs, hcs⟩ := Option.isSome_iff_exists.mp (ws_isSome_of_mem _ hs)
  rw [allowedTransitions_eq hcs] at ht
  obtain ⟨r, hr, hrabs⟩ := habsent
  have hrmem : r ∈ missingDocumentsFor p.documents t :=
    (mem_missingDocumentsFor hd p.documents r).mpr ⟨hr, hrabs⟩
  exact ⟨transition_missing a c now hcs ht hd (List.ne_nil_of_mem hrmem),
         mem_missingDocumentsFor hd p.documents⟩

/-- Witness for C3 at `issued → monitoring` with only an
`issuance-confirmation` document present: the prerequisite checked is the
target's, so the transition fails missing exactly `monitoring-report`
(spec Scenario D). -/
theorem missing_documents_rejected_witness :
    ((("issued" : String) ∈ stateList) ∧
     (("monitoring" : String) ∈ allowedTransitions "issued") ∧
     workflowStates "monitoring"
       = some { name := "Monitoring", allowedTransitions := ["verification"],
                requiredDocuments := ["monitoring-report"] } ∧
     (∃ r ∈ ["monitoring-report"],
        ∀ doc ∈ [({ documentType := "issuance-confirmation" } : DocumentRef)],
          doc.documentType ≠ r)) ∧
    (transitionProjectStatus
        { id := "p-2", owner := "o-2", status := "issued", statusHistory := [],
          documents := [{ documentType := "issuance-confirmation" }] }
        "monitoring" "a-2" none 9
      = ({ id := "p-2", owner := "o-2", status := "issued", statusHistory := [],
           documents := [{ documentType := "issuance-confirmation" }] },
         .missingDocuments
           (missingDocumentsFor [{ documentType := "issuance-confirmation" }] "monitoring")) ∧
     ∀ x, x ∈ missingDocumentsFor
              [({ documentType := "issuance-confirmation" } : DocumentRef)] "monitoring" ↔
       (x ∈ ["monitoring-report"] ∧
        ∀ doc ∈ [({ documentType := "issuance-confirmation" } : DocumentRef)],
          doc.documentType ≠ x)) :=
  ⟨⟨by decide, by decide, by decide, by decide⟩,
   missing_documents_rejected
     { id := "p-2", owner := "o-2", status := "issued", statusHistory := [],
       documents := [{ documentType := "issuance-confirmation" }] }
     "monitoring" "a-2" none 9
     { name := "Monitoring", allowedTransitions := ["verification"],
       requiredDocuments := ["monitoring-report"] }
     (by decide) (by decide) (by decide) (by decide)⟩

/-- Claim C4: when reachability and prerequisites both pass, the handler
succeeds: the returned project's status is the target and its history is the
old history with exactly one record appended, carrying the target status,
the acting user's id and the comment passed in; all earlier entries are kept
verbatim. -/
theorem successful_transition_applies (p : Project) (t a : String) (c : Option String)
    (now : Nat) (hs : p.status ∈ stateList) (ht : t ∈ allowedTransitions p.status)
    (hm : missingDocumentsFor p.documents t = []) :
    (∃ n, transitionProjectStatus p t a c now =
      ({ p with
          status := t,
          statusHistory := p.statusHistory ++
            [{ status := t, timestamp := now, updatedBy := a, comment := c }] },
       .ok t (p.statusHistory ++
            [{ status := t, timestamp := now, updatedBy := a, comment := c }]) n)) ∧
    (p.statusHistory ++
      [({ status := t, timestamp := now, updatedBy := a,
          comment := c } : StatusChangeRecord)]).length
      = p.statusHistory.length + 1 := by
  obtain ⟨cs, hcs⟩ := Option.isSome_iff_exists.mp (ws_isSome_of_mem _ hs)
  obtain ⟨d, hd⟩ := Option.isSome_iff_exists.mp
    (ws_isSome_of_mem _ (allowed_subset _ hs _ ht))
  rw [allowedTransitions_eq hcs] at ht
  exact ⟨⟨_, transition_ok a c now hcs ht hd hm⟩, by simp⟩

/-- Witness for C4: a `draft` project holding a `project-design-document`
transitions to `in-progress` (spec Scenario B). -/
theorem successful_transition_applies_witness :
    ((("draft" : String) ∈ stateList) ∧
     (("in-progress" : String) ∈ allowedTransitions "draft") ∧
     missingDocumentsFor [({ documentType := "project-design-document" } : DocumentRef)]
       "in-progress" = []) ∧
    ((∃ n, transitionProjectStatus
        { id := "p-3", owner := "o-3", status := "draft", statusHistory := [],
          documents := [{ documentType := "project-design-document" }] }
        "in-progress" "a-3" (some "ready") 4 =
      ({ id := "p-3", owner := "o-3", status := "in-progress",
         statusHistory := [{ status := "in-progress", timestamp := 4,
                             updatedBy := "a-3", comment := some "ready" }],
         documents := [{ documentType := "project-design-document" }] },
       .ok "in-progress"
         [{ status := "in-progress", timestamp := 4,
            updatedBy := "a-3", comment := some "ready" }] n)) ∧
     ([({ status := "in-progress", timestamp := 4, updatedBy := "a-3",
          comment := some "ready" } : StatusChangeRecord)]).length = 0 + 1) :=
  ⟨⟨by decide, by decide, by decide⟩,
   successful_transition_applies
     { id := "p-3", owner := "o-3", status := "draft", statusHistory := [],
       documents := [{ documentType := "project-design-document" }] }
     "in-progress" "a-3" (some "ready") 4 (by decide) (by decide) (by decide)⟩

/-- Claim C5: the status/history consistency invariant — status equals the
last history record's status, or `draft` on empty history — is preserved by
every call of the handler, successful or failed. -/
theorem status_consistency_preserved (p : Project) (t a : String) (c : Option String)
    (now : Nat) (h : statusConsistent p) :
    statusConsistent (transitionProjectStatus p t a c now).1 := by
  rcases transition_fst p t a c now with h1 | h1
  · rw [h1]; exact h
  · rw [h1]; simp [statusConsistent]

/-- Witness for C5: the invariant holds before and after a successful
transition out of `draft`. -/
theorem status_consistency_preserved_witness :
    statusConsistent
      { id := "p-4", owner := "o-4", status := "draft", statusHistory := [],
        documents := [{ documentType := "project-design-document" }] } ∧
    statusConsistent
      (transitionProjectStatus
        { id := "p-4", owner := "o-4", status := "draft", statusHistory := [],
          documents := [{ documentType := "project-design-document" }] }
        "in-progress" "a-4" none 2).1 :=
  ⟨by decide,
   status_consistency_preserved
     { id := "p-4", owner := "o-4", status := "draft", statusHistory := [],
       documents := [{ documentType := "project-design-document" }] }
     "in-progress" "a-4" none 2 (by decide)⟩

/-- Claim C6 counterexample: on a successful `draft → in-progress` transition
requested by actor `actor-2` on a project owned by `owner-1`, the emitted
notification carries the owner's id, not the actor's: no component of the
event equals `actor-2`, and its `previousStatus` field holds the display
name `Draft` rather than the previous state `draft`. -/
theorem notification_event_counterexample :
    transitionProjectStatus
        { id := "p-1", owner := "owner-1", status := "draft", statusHistory := [],
          documents := [{ documentType := "project-design-document" }] }
        "in-progress" "actor-2" none 5
      = ({ id := "p-1", owner := "owner-1", status := "in-progress",
           statusHistory := [{ status := "in-progress", timestamp := 5,
                               updatedBy := "actor-2", comment := none }],
           documents := [{ documentType := "project-design-document" }] },
         .ok "in-progress"
           [{ status := "in-progress", timestamp := 5,
              updatedBy := "actor-2", comment := none }]
           { type := "status-change", projectId := "p-1", userId := "owner-1",
             message := "Project status changed to In Progress",
             data := { newStatus := "in-progress", previousStatus := "Draft" } }) ∧
    ("owner-1" : String) ≠ "actor-2" ∧ ("p-1" : String) ≠ "actor-2" ∧
    ("status-change" : String) ≠ "actor-2" ∧
    ("Project status changed to In Progress" : String) ≠ "actor-2" ∧
    ("in-progress" : String) ≠ "actor-2" ∧ ("Draft" : String) ≠ "actor-2" ∧
    ("Draft" : String) ≠ "draft" := by
  decide

/-- Claim C6 as amended: every successful call emits exactly one notification,
and it contains the project id, the new state, the display name of the
previous state, and the project owner's user id (the requesting actor's id
is not part of the event). -/
theorem notification_event_content (p p' : Project) (t a : String) (c : Option String)
    (now : Nat) (st : String) (hist : List StatusChangeRecord) (n : Notification)
    (h : transitionProjectStatus p t a c now = (p', .ok st hist n)) :
    n.type = "status-change" ∧ n.projectId = p.id ∧ n.userId = p.owner ∧
    n.data.newStatus = t ∧
    (∀ cs, workflowStates p.status = some cs → n.data.previousStatus = cs.name) ∧
    (∀ d, workflowStates t = some d →
      n.message = "Project status changed to " ++ d.name) := by
  obtain ⟨cs, d, hcs, ht, hd, hn⟩ := transition_ok_inv h
  subst hn
  refine ⟨rfl, rfl, rfl, rfl, ?_, ?_⟩
  · intro cs' hcs'; rw [hcs] at hcs'; cases hcs'; rfl
  · intro d' hd'; rw [hd] at hd'; cases hd'; rfl

/-- Witness for amended C6 at the same concrete transition as the
counterexample. -/
theorem notification_event_content_witness :
    transitionProjectStatus
        { id := "p-1", owner := "owner-1", status := "draft", statusHistory := [],
          documents := [{ documentType := "project-design-document" }] }
        "in-progress" "actor-2" none 5
      = ({ id := "p-1", owner := "owner-1", status := "in-progress",
           statusHistory := [{ status := "in-progress", timestamp := 5,
                               updatedBy := "actor-2", comment := none }],
           documents := [{ documentType := "project-design-document" }] },
         .ok "in-progress"
           [{ status := "in-progress", timestamp := 5,
              updatedBy := "actor-2", comment := none }]
           { type := "status-change", projectId := "p-1", userId := "owner-1",
             message := "Project status changed to In Progress",
             data := { newStatus := "in-progress", previousStatus := "Draft" } }) ∧
    (({ type := "status-change", projectId := "p-1", userId := "owner-1",
        message := "Project status changed to In Progress",
        data := { newStatus := "in-progress",
                  previousStatus := "Draft" } } : Notification).type = "status-change" ∧
     ({ type := "status-change", projectId := "p-1", userId := "owner-1",
        message := "Project status changed to In Progress",
        data := { newStatus := "in-progress",
                  previousStatus := "Draft" } } : Notification).projectId = "p-1" ∧
     ({ type := "status-change", projectId := "p-1", userId := "owner-1",
        message := "Project status changed to In Progress",
        data := { newStatus := "in-progress",
                  previousStatus := "Draft" } } : Notification).userId = "owner-1" ∧
     ({ type := "status-change", projectId := "p-1", userId := "owner-1",
        message := "Project status changed to In Progress",
        data := { newStatus := "in-progress",
                  previousStatus := "Draft" } } : Notification).data.newStatus
       = "in-progress" ∧
     (∀ cs, workflowStates "draft" = some cs →
       ({ type := "status-change", projectId := "p-1", userId := "owner-1",
          message := "Project status changed to In Progress",
          data := { newStatus := "in-progress",
                    previousStatus := "Draft" } } : Notification).data.previousStatus
         = cs.name) ∧
     (∀ d, workflowStates "in-progress" = some d →
       ({ type := "status-change", projectId := "p-1", userId := "owner-1",
          message := "Project status changed to In Progress",
          data := { newStatus := "in-progress",
                    previousStatus := "Draft" } } : Notification).message
         = "Project status changed to " ++ d.name)) :=
  ⟨by decide,
   notification_event_content
     { id := "p-1", owner := "owner-1", status := "draft", statusHistory := [],
       documents := [{ documentType := "project-design-document" }] }
     { id := "p-1", owner := "owner-1", status := "in-progress",
       statusHistory := [{ status := "in-progress", timestamp := 5,
                           updatedBy := "actor-2", comment := none }],
       documents := [{ documentType := "project-design-document" }] }
     "in-progress" "actor-2" none 5 "in-progress"
     [{ status := "in-progress", timestamp := 5,
        updatedBy := "actor-2", comment := none }]
     { type := "status-change", projectId := "p-1", userId := "owner-1",
       message := "Project status changed to In Progress",
       data := { newStatus := "in-progress", previousStatus := "Draft" } }
     (by decide)⟩

/-- Claim C7: no state's reachable set contains the state itself, so a no-op
transition request from any state into itself is rejected with
`InvalidTransitionError` and leaves the project unchanged. -/
theorem noop_transition_rejected (p : Project) (a : String) (c : Option String)
    (now : Nat) (hs : p.status ∈ stateList) :
    p.status ∉ allowedTransitions p.status ∧
    transitionProjectStatus p p.status a c now
      = (p, .invalidTransition p.status p.status) :=
  ⟨noop_not_allowed _ hs, transition_invalid a c now hs (noop_not_allowed _ hs)⟩

/-- Witness for C7: `validated → validated` is rejected. -/
theorem noop_transition_rejected_witness :
    (("validated" : String) ∈ stateList) ∧
    (("validated" : String) ∉ allowedTransitions "validated" ∧
     transitionProjectStatus
        { id := "p-5", owner := "o-5", status := "validated", statusHistory := [],
          documents := [] } "validated" "a-5" none 3
      = ({ id := "p-5", owner := "o-5", status := "validated", statusHistory := [],
           documents := [] },
         .invalidTransition "validated" "validated")) :=
  ⟨by decide,
   noop_transition_rejected
     { id := "p-5", owner := "o-5", status := "validated", statusHistory := [],
       documents := [] } "a-5" none 3 (by decide)⟩

/-- Claim C8: the history is append-only — after any call the old history is
a prefix of the new one — and, provided the clock reads no earlier than every
recorded timestamp, timestamps along the history stay non-decreasing. -/
theorem history_append_only (p : Project) (t a : String) (c : Option String)
    (now : Nat) (hmono : timestampsMono p.statusHistory = true)
    (hnow : ∀ r ∈ p.statusHistory, r.timestamp ≤ now) :
    p.statusHistory <+: (transitionProjectStatus p t a c now).1.statusHistory ∧
    timestampsMono (transitionProjectStatus p t a c now).1.statusHistory = true := by
  rcases transition_fst p t a c now with h1 | h1 <;> rw [h1]
  · exact ⟨List.prefix_refl _, hmono⟩
  · exact ⟨List.prefix_append _ _, timestampsMono_concat _ _ hmono hnow⟩

/-- Witness for C8: an `in-progress` project with one prior record moves back
to `draft`; the old record stays a prefix and timestamps stay ordered. -/
theorem history_append_only_witness :
    (timestampsMono [{ status := "in-progress", timestamp := 1, updatedBy := "a-6",
                       comment := none }] = true ∧
     ∀ r ∈ [({ status := "in-progress", timestamp := 1, updatedBy := "a-6",
               comment := none } : StatusChangeRecord)], r.timestamp ≤ 5) ∧
    ([({ status := "in-progress", timestamp := 1, updatedBy := "a-6",
         comment := none } : StatusChangeRecord)] <+:
      (transitionProjectStatus
        { id := "p-6", owner := "o-6", status := "in-progress",
          statusHistory := [{ status := "in-progress", timestamp := 1,
                              updatedBy := "a-6", comment := none }],
          documents := [] } "draft" "a-6" none 5).1.statusHistory ∧
     timestampsMono
      (transitionProjectStatus
        { id := "p-6", owner := "o-6", status := "in-progress",
          statusHistory := [{ status := "in-progress", timestamp := 1,
                              updatedBy := "a-6", comment := none }],
          documents := [] } "draft" "a-6" none 5).1.statusHistory = true) :=
  ⟨⟨by decide, by decide⟩,
   history_append_only
     { id := "p-6", owner := "o-6", status := "in-progress",
       statusHistory := [{ status := "in-progress", timestamp := 1,
                           updatedBy := "a-6", comment := none }],
       documents := [] } "draft" "a-6" none 5 (by decide) (by decide)⟩

/-- Claim C9: the handler never touches the document set — on success or
failure the returned project's documents equal the input's — and the pure
query `missingDocumentsFor`, being a function of the (unchanged) documents,
answers identically before and after any call. -/
theorem engine_reads_documents_only (p : Project) (t a : String) (c : Option String)
    (now : Nat) :
    (transitionProjectStatus p t a c now).1.documents = p.documents ∧
    ∀ u, missingDocumentsFor (transitionProjectStatus p t a c now).1.documents u
        = missingDocumentsFor p.documents u := by
  have hdoc : (transitionProjectStatus p t a c now).1.documents = p.documents := by
    rcases transition_fst p t a c now with h1 | h1 <;> simp [h1]
  exact ⟨hdoc, fun u => by rw [hdoc]⟩

/-- Claim C10: a target outside the ten-state set has no table entry, yet
from any valid current state the request is answered with
`InvalidTransitionError` and the project untouched — the reachability check
fires before the target's table entry would be dereferenced, so the handler
never reaches its 500 branch on such input. -/
theorem unknown_target_rejected (p : Project) (t a : String) (c : Option String)
    (now : Nat) (hs : p.status ∈ stateList) (ht : t ∉ stateList) :
    workflowStates t = none ∧
    transitionProjectStatus p t a c now = (p, .invalidTransition p.status t) :=
  ⟨ws_none_of_not_mem ht,
   transition_invalid a c now hs (fun hmem => ht (allowed_subset _ hs _ hmem))⟩

/-- Witness for C10: requesting the unknown state `archived` from `draft`. -/
theorem unknown_target_rejected_witness :
    ((("draft" : String) ∈ stateList) ∧ ("archived" : String) ∉ stateList) ∧
    (workflowStates "archived" = none ∧
     transitionProjectStatus
        { id := "p-7", owner := "o-7", status := "draft", statusHistory := [],
          documents := [] } "archived" "a-7" none 1
      = ({ id := "p-7", owner := "o-7", status := "draft", statusHistory := [],
           documents := [] },
         .invalidTransition "draft" "archived")) :=
  ⟨⟨by decide, by decide⟩,
   unknown_target_rejected
     { id := "p-7", owner := "o-7", status := "draft", statusHistory := [],
       documents := [] } "archived" "a-7" none 1 (by decide) (by decide)⟩

end CADboard
